import Mathlib

/-!
Shallow embedding of the drug-food interaction checker
(core.py, rxnorm.py, ml_model/predict.py, medline_scraper.py).

Python strings are modelled as Lean `String` (or `List Char` for the
character-level routines); `None` becomes `Option.none`; a Python
exception escaping a call becomes `Except.error msg`.  External
collaborators (RxNorm HTTP endpoints, the MedlinePlus fetch, the Gemini
adapter) are parameters of the embedded functions, so theorems quantify
over their behaviour.
-/

/-! ## Character/string helpers mirroring Python primitives -/

/-- Python `str.lower` restricted to the ASCII range (all inputs in the
repository's tables are ASCII). -/
def pyLower (l : List Char) : List Char := l.map Char.toLower

/-- Rebuild a `String` from its character list. -/
def ofChars (l : List Char) : String := String.mk l

/-- `str.lower` on whole strings. -/
def pyLowerS (s : String) : String := ofChars (pyLower s.data)

/-- Python whitespace class `\s` (ASCII part): space, tab, newline,
carriage return, vertical tab, form feed. -/
def isPySpace (c : Char) : Bool :=
  c == ' ' || c == '\t' || c == '\n' || c == '\r' ||
  c == Char.ofNat 11 || c == Char.ofNat 12

/-- Python `str.strip()` on a character list. -/
def stripChars (l : List Char) : List Char :=
  ((l.dropWhile isPySpace).reverse.dropWhile isPySpace).reverse

/-- Python `pat in s` (contiguous substring test). -/
def containsSub (pat : List Char) : List Char → Bool
  | [] => pat.isEmpty
  | c :: rest => List.isPrefixOf pat (c :: rest) || containsSub pat rest

/-- Substring test on `String`s. -/
def containsSubS (pat s : String) : Bool := containsSub pat.data s.data

/-! ## core.py: check_interaction -/

/-- Truthiness test `official_result and official_result.strip()` from
core.py line 27: a non-null result whose stripped text is non-empty. -/
def officialOk : Option String → Bool
  | some s => !(stripChars s.data).isEmpty
  | none => false

/-- Condition `ai_response and "no known interaction" in ai_response.lower()`
from core.py line 36. -/
def aiNoInteraction : Option String → Bool
  | some s => containsSub ("no known interaction".data) (pyLower s.data)
  | none => false

/-- The `try` body of core.py `check_interaction` (lines 17-43), with the
four collaborators passed explicitly.  An `Except.error` models an
exception escaping one of the calls. -/
def check_interaction_body
    (get_generic_name : String → Except String String)
    (scrape_medlineplus : String → String → Except String (Option String))
    (query_interaction_gemini : String → String → Except String (Option String))
    (predict_interaction : String → String → Except String String)
    (drug food : String) : Except String (String × Option String × String) :=
  match get_generic_name drug with
  | .error e => .error e
  | .ok generic_drug =>
    match scrape_medlineplus generic_drug food with
    | .error e => .error e
    | .ok official_result =>
      if officialOk official_result then
        .ok ("official", official_result, generic_drug)
      else
        match query_interaction_gemini generic_drug food with
        | .error e => .error e
        | .ok ai_response =>
          if aiNoInteraction ai_response then
            match predict_interaction generic_drug food with
            | .error e => .error e
            | .ok ml_prediction => .ok ("ml", some ml_prediction, generic_drug)
          else
            .ok ("ai", ai_response, generic_drug)

/-- core.py `check_interaction` (lines 11-47): the `try` body plus the
`except Exception` handler that converts any escaped exception into an
`error` result carrying the raw drug name. -/
def check_interaction
    (get_generic_name : String → Except String String)
    (scrape_medlineplus : String → String → Except String (Option String))
    (query_interaction_gemini : String → String → Except String (Option String))
    (predict_interaction : String → String → Except String String)
    (drug food : String) : String × Option String × String :=
  match check_interaction_body get_generic_name scrape_medlineplus
      query_interaction_gemini predict_interaction drug food with
  | .ok r => r
  | .error e =>
      ("error", some ("An error occurred while checking interactions: " ++ e), drug)

/-! ## rxnorm.py: name normalization -/

/-- One element of a `conceptProperties` list in the RxNorm drug-search
response (rxnorm.py lines 75-85); both JSON keys may be absent. -/
structure RxConcept where
  synonymType : Option String
  name : Option String
deriving DecidableEq

/-- Python truthiness of an optional string (`None` and `""` are falsy). -/
def truthyS : Option String → Bool
  | some s => !(s == "")
  | none => false

/-- One iteration of the candidate loop in rxnorm.py lines 78-85: each
branch of the `if`/`elif` chain is guarded by `not best_match`, and every
branch assigns `concept.get("name", drug_name)`. -/
def rxStepConcept (drug_name : String) (best : Option String) (c : RxConcept) :
    Option String :=
  if c.synonymType == some "BN" && !(truthyS best) then some (c.name.getD drug_name)
  else if c.synonymType == some "IN" && !(truthyS best) then some (c.name.getD drug_name)
  else if !(truthyS best) then some (c.name.getD drug_name)
  else best

/-- The full candidate-selection loop of rxnorm.py lines 74-85.  A group
without a `conceptProperties` key is `none` and is skipped. -/
def findBestMatch (drug_name : String) (groups : List (Option (List RxConcept))) :
    Option String :=
  groups.foldl
    (fun best g =>
      match g with
      | none => best
      | some concepts => concepts.foldl (rxStepConcept drug_name) best)
    none

/-- Association-list lookup modelling a Python `dict` read. -/
def lookupAssoc : List (String × String) → String → Option String
  | [], _ => none
  | (k, v) :: rest, key => if k == key then some v else lookupAssoc rest key

/-- Dict assignment `d[k] = v`: overwrite an existing key, else append. -/
def cacheInsert (cache : List (String × String)) (k v : String) :
    List (String × String) :=
  if (lookupAssoc cache k).isSome then
    cache.map (fun p => if p.1 == k then (k, v) else p)
  else cache ++ [(k, v)]

/-- rxnorm.py `COMMON_DRUG_MAPPINGS` (lines 179-200). -/
def COMMON_DRUG_MAPPINGS : List (String × String) :=
  [("lipitor", "atorvastatin"),
   ("zocor", "simvastatin"),
   ("coumadin", "warfarin"),
   ("tylenol", "acetaminophen"),
   ("advil", "ibuprofen"),
   ("aspirin", "acetylsalicylic acid"),
   ("prozac", "fluoxetine"),
   ("zoloft", "sertraline"),
   ("paxil", "paroxetine"),
   ("lexapro", "escitalopram"),
   ("celexa", "citalopram"),
   ("wellbutrin", "bupropion"),
   ("effexor", "venlafaxine"),
   ("cymbalta", "duloxetine"),
   ("abilify", "aripiprazole"),
   ("zyprexa", "olanzapine"),
   ("risperdal", "risperidone"),
   ("seroquel", "quetiapine"),
   ("geodon", "ziprasidone"),
   ("clozaril", "clozapine")]

/-- The external state and collaborators of rxnorm.py: the in-memory
`DRUG_CACHE` and the three RxNav endpoints (drug search, rxcui lookup,
rxcui properties).  An `Except.error` models a request/parse failure. -/
structure RxEnv where
  cache : List (String × String)
  drugSearch : String → Except String (List (Option (List RxConcept)))
  rxcuiOf : String → Except String (Option String)
  propsName : String → Except String (Option String)

/-- rxnorm.py `get_generic_name_alternative` (lines 104-144), reached with
the already-stripped drug name.  Returns (result, cache after the call,
network requests issued so far including `baseCalls` from the caller). -/
def get_generic_name_alternative (env : RxEnv) (drug_name : String)
    (baseCalls : Nat) : String × List (String × String) × Nat :=
  match env.rxcuiOf drug_name with
  | .error _ => (drug_name, env.cache, baseCalls + 1)
  | .ok none =>
      (drug_name, cacheInsert env.cache (pyLowerS drug_name) drug_name, baseCalls + 1)
  | .ok (some rxcui) =>
    match env.propsName rxcui with
    | .error _ => (drug_name, env.cache, baseCalls + 2)
    | .ok nameOpt =>
      let generic_name := nameOpt.getD drug_name
      if generic_name == drug_name then
        (drug_name, cacheInsert env.cache (pyLowerS drug_name) drug_name, baseCalls + 2)
      else
        (generic_name, cacheInsert env.cache (pyLowerS drug_name) generic_name,
         baseCalls + 2)

/-- rxnorm.py `get_generic_name` (lines 39-102): the normalization used by
core.py.  Returns (result, cache after the call, network requests issued). -/
def get_generic_name_impl (env : RxEnv) (drug_name : String) :
    String × List (String × String) × Nat :=
  if drug_name == "" || ofChars (stripChars drug_name.data) == "" then
    (drug_name, env.cache, 0)
  else
    let dn := ofChars (stripChars drug_name.data)
    match lookupAssoc env.cache (pyLowerS dn) with
    | some v => (v, env.cache, 0)
    | none =>
      match env.drugSearch dn with
      | .error _ => (dn, env.cache, 1)
      | .ok concept_group =>
        match findBestMatch dn concept_group with
        | some best_match =>
          if !(best_match == "") && !(best_match == dn) then
            (best_match, cacheInsert env.cache (pyLowerS dn) best_match, 1)
          else get_generic_name_alternative env dn 1
        | none => get_generic_name_alternative env dn 1

/-- rxnorm.py `get_generic_name_quick` (lines 202-223): alias table first,
then the cache, then the API path. -/
def get_generic_name_quick (env : RxEnv) (drug_name : String) :
    String × List (String × String) × Nat :=
  let drug_lower := pyLowerS drug_name
  match lookupAssoc COMMON_DRUG_MAPPINGS drug_lower with
  | some g => (g, env.cache, 0)
  | none =>
    match lookupAssoc env.cache drug_lower with
    | some g => (g, env.cache, 0)
    | none => get_generic_name_impl env drug_name

/-! ## ml_model/predict.py: rule-based predictor -/

/-- One value of the `DRUG_FOOD_INTERACTIONS` dict, together with its
(drug, food) key. -/
structure InteractionEntry where
  drug : String
  food : String
  risk : String
  mechanism : String
  effect : String
  recommendation : String
deriving DecidableEq

/-- predict.py `DRUG_FOOD_INTERACTIONS` (lines 8-105), in insertion
order. -/
def DRUG_FOOD_INTERACTIONS : List InteractionEntry :=
  [{ drug := "atorvastatin", food := "grapefruit", risk := "High",
     mechanism := "Grapefruit inhibits CYP3A4 enzyme, increasing atorvastatin concentration",
     effect := "Increased risk of muscle damage and liver problems",
     recommendation := "Avoid grapefruit and grapefruit juice while taking atorvastatin" },
   { drug := "simvastatin", food := "grapefruit", risk := "High",
     mechanism := "Grapefruit inhibits CYP3A4, increasing simvastatin levels",
     effect := "Higher risk of muscle pain and liver damage",
     recommendation := "Avoid grapefruit products completely" },
   { drug := "warfarin", food := "spinach", risk := "Moderate",
     mechanism := "Spinach is high in vitamin K, which counteracts warfarin",
     effect := "Reduced anticoagulant effect, increased clotting risk",
     recommendation := "Maintain consistent vitamin K intake, don't suddenly change diet" },
   { drug := "warfarin", food := "cranberry", risk := "Moderate",
     mechanism := "Cranberry may increase warfarin's anticoagulant effect",
     effect := "Increased bleeding risk",
     recommendation := "Limit cranberry products and monitor for bleeding" },
   { drug := "tetracycline", food := "dairy", risk := "Moderate",
     mechanism := "Calcium in dairy products binds to tetracycline",
     effect := "Reduced antibiotic absorption and effectiveness",
     recommendation := "Take tetracycline 2 hours before or 4 hours after dairy" },
   { drug := "ciprofloxacin", food := "dairy", risk := "Moderate",
     mechanism := "Calcium interferes with ciprofloxacin absorption",
     effect := "Decreased antibiotic effectiveness",
     recommendation := "Avoid dairy products 2 hours before and after taking ciprofloxacin" },
   { drug := "lisinopril", food := "banana", risk := "Moderate",
     mechanism := "Bananas are high in potassium, lisinopril can increase potassium levels",
     effect := "Risk of hyperkalemia (high potassium)",
     recommendation := "Monitor potassium intake, avoid excessive bananas" },
   { drug := "spironolactone", food := "banana", risk := "Moderate",
     mechanism := "Both spironolactone and bananas increase potassium",
     effect := "Increased risk of hyperkalemia",
     recommendation := "Limit high-potassium foods like bananas" },
   { drug := "phenelzine", food := "aged_cheese", risk := "High",
     mechanism := "Aged cheese contains tyramine, MAOIs prevent its breakdown",
     effect := "Tyramine buildup can cause severe hypertension",
     recommendation := "Avoid aged cheeses, cured meats, and fermented foods" },
   { drug := "tranylcypromine", food := "red_wine", risk := "High",
     mechanism := "Red wine contains tyramine, MAOIs prevent its metabolism",
     effect := "Dangerous blood pressure spikes",
     recommendation := "Avoid red wine and other tyramine-rich foods" },
   { drug := "metformin", food := "alcohol", risk := "Moderate",
     mechanism := "Alcohol can increase metformin's effect on lactic acid",
     effect := "Increased risk of lactic acidosis",
     recommendation := "Limit alcohol consumption while taking metformin" },
   { drug := "levothyroxine", food := "soy", risk := "Moderate",
     mechanism := "Soy can interfere with levothyroxine absorption",
     effect := "Reduced thyroid hormone effectiveness",
     recommendation := "Take levothyroxine 4 hours before or after soy products" },
   { drug := "levothyroxine", food := "iron_supplements", risk := "Moderate",
     mechanism := "Iron can bind to levothyroxine in the gut",
     effect := "Decreased thyroid hormone absorption",
     recommendation := "Separate iron supplements by 4 hours from levothyroxine" }]

/-- predict.py `FOOD_CATEGORIES` (lines 107-115), in insertion order. -/
def FOOD_CATEGORIES : List (String × List String) :=
  [("grapefruit", ["grapefruit", "grapefruit juice", "citrus"]),
   ("dairy", ["milk", "cheese", "yogurt", "cream", "butter", "ice cream"]),
   ("high_potassium", ["banana", "potato", "tomato", "avocado", "spinach", "kale"]),
   ("high_vitamin_k", ["spinach", "kale", "broccoli", "brussels sprouts", "cabbage"]),
   ("tyramine_rich", ["aged cheese", "cured meat", "salami", "pepperoni", "red wine", "beer"]),
   ("iron_rich", ["red meat", "spinach", "beans", "lentils", "iron supplements"])]

/-- predict.py `format_interaction_result` (lines 153-177).  The `drug`
and `food` parameters are accepted but unused, exactly as in the source. -/
def format_interaction_result (interaction : InteractionEntry)
    (drug food : String) : String :=
  let recommendation_text := interaction.recommendation
  let action :=
    if containsSub "avoid".data (pyLower recommendation_text.data) then "Avoid"
    else if containsSub "limit".data (pyLower recommendation_text.data) then "Limit"
    else if containsSub "monitor".data (pyLower recommendation_text.data) then "Monitor"
    else "Safe"
  "\n**RISK LEVEL**: " ++ interaction.risk ++
  "\n\n**INTERACTION**: Yes - Known interaction in medical database\n\n**RECOMMENDATION**: "
  ++ action ++ " - " ++ pyLowerS recommendation_text ++
  "\n\n**REASON**: " ++ interaction.mechanism ++
  "\n\n---\n*Source: ML Prediction - Based on known drug-food interactions*\n"

/-- predict.py `generate_no_interaction_response` (lines 179-193); the
parameters are unused in the source too. -/
def generate_no_interaction_response (drug food : String) : String :=
  "\n**RISK LEVEL**: None\n\n**INTERACTION**: No - No known interactions in database\n\n**RECOMMENDATION**: Safe - This combination appears safe based on available data\n\n**REASON**: No significant drug-food interactions found in our medical database\n\n---\n*Source: ML Prediction - Based on known drug-food interactions*\n"

/-- Dict-membership test of predict.py line 129: first entry whose key is
exactly (drug_lower, food_lower). -/
def directFind (drug_lower food_lower : String) : Option InteractionEntry :=
  DRUG_FOOD_INTERACTIONS.find? (fun e => e.drug == drug_lower && e.food == food_lower)

/-- The category loop of predict.py lines 134-138: for each category whose
member list contains the query food, return the first table entry with the
same drug and a food key in that category; on failure move to the next
category. -/
def categoryFind (drug_lower food_lower : String) : Option InteractionEntry :=
  FOOD_CATEGORIES.findSome? (fun cat =>
    if cat.2.contains food_lower then
      DRUG_FOOD_INTERACTIONS.find? (fun e =>
        e.drug == drug_lower && cat.2.contains e.food)
    else none)

/-- The partial-match loop of predict.py lines 141-144: drug substring in
either direction, and query food equal to or contained in the entry's
food key. -/
def partialFind (drug_lower food_lower : String) : Option InteractionEntry :=
  DRUG_FOOD_INTERACTIONS.find? (fun e =>
    (containsSubS drug_lower e.drug || containsSubS e.drug drug_lower) &&
    (food_lower == e.food || containsSubS food_lower e.food))

/-- predict.py `predict_interaction` (lines 117-151).  The `try` wrapper
is dead code (the body performs no fallible operation), so the function is
modelled as total. -/
def predict_interaction (drug food : String) : String :=
  let drug_lower := pyLowerS drug
  let food_lower := pyLowerS food
  match directFind drug_lower food_lower with
  | some interaction => format_interaction_result interaction drug food
  | none =>
    match categoryFind drug_lower food_lower with
    | some interaction => format_interaction_result interaction drug food
    | none =>
      match partialFind drug_lower food_lower with
      | some interaction => format_interaction_result interaction drug food
      | none => generate_no_interaction_response drug food

/-! ## medline_scraper.py: lookup-key derivation, food filtering,
risk classification -/

/-- Scanner for `re.sub(r'\d+\s*mg', '', name)` (medline_scraper.py
line 75): at each position try greedy digits, then greedy whitespace,
then the literal `mg`; on success drop the match, otherwise keep one
character and move on (Python `re.sub` restarts one position later).
The fuel argument is the length of the remaining text; each step consumes
at least one character, so the fuel never runs out on the initial call. -/
def stripMgGo (fuel : Nat) (s : List Char) : List Char :=
  match fuel, s with
  | _, [] => []
  | 0, rest => rest
  | Nat.succ n, c :: rest =>
    if c.isDigit then
      let afterDigits := (c :: rest).dropWhile Char.isDigit
      let afterSpaces := afterDigits.dropWhile isPySpace
      match afterSpaces with
      | 'm' :: 'g' :: rest2 => stripMgGo n rest2
      | _ => c :: stripMgGo n rest
    else c :: stripMgGo n rest

/-- `re.sub(r'\d+\s*mg', '', name)`. -/
def stripMg (s : List Char) : List Char := stripMgGo s.length s

/-- Python `str.replace(pat, '')`: remove every (leftmost,
non-overlapping) occurrence of a non-empty pattern.  Fuel as in
`stripMgGo`. -/
def removeAllGo (pat : List Char) (fuel : Nat) (s : List Char) : List Char :=
  match fuel, s with
  | _, [] => []
  | 0, rest => rest
  | Nat.succ n, c :: rest =>
    if !pat.isEmpty && List.isPrefixOf pat (c :: rest) then
      removeAllGo pat n (rest.drop (pat.length - 1))
    else c :: removeAllGo pat n rest

/-- `str.replace(pat, '')`. -/
def removeAll (pat s : List Char) : List Char := removeAllGo pat s.length s

/-- Helper for `re.sub(r'\[.*?\]', '', name)`: the text after the first
`]` in the remainder, unless a newline intervenes (`.` does not match a
newline) or no `]` exists. -/
def findCloseBracket : List Char → Option (List Char)
  | [] => none
  | c :: rest =>
    if c == ']' then some rest
    else if c == '\n' then none
    else findCloseBracket rest

/-- Scanner for `re.sub(r'\[.*?\]', '', name)` (medline_scraper.py
line 83): each `[` with a closing `]` on the same line is removed together
with everything between them. -/
def stripBracketsGo (fuel : Nat) (s : List Char) : List Char :=
  match fuel, s with
  | _, [] => []
  | 0, rest => rest
  | Nat.succ n, c :: rest =>
    if c == '[' then
      match findCloseBracket rest with
      | some rest2 => stripBracketsGo n rest2
      | none => c :: stripBracketsGo n rest
    else c :: stripBracketsGo n rest

/-- `re.sub(r'\[.*?\]', '', name)`. -/
def stripBrackets (s : List Char) : List Char := stripBracketsGo s.length s

/-- `re.sub(r'\s+', ' ', name)`: collapse each whitespace run to a single
space.  `prevSpace` records whether the previous character was part of a
run already emitted. -/
def collapseWsGo (prevSpace : Bool) : List Char → List Char
  | [] => []
  | c :: rest =>
    if isPySpace c then
      if prevSpace then collapseWsGo true rest
      else ' ' :: collapseWsGo true rest
    else c :: collapseWsGo false rest

/-- `re.sub(r'\s+', ' ', name)`. -/
def collapseWs (s : List Char) : List Char := collapseWsGo false s

/-- medline_scraper.py line 78: dosage-form phrases removed in order. -/
def DOSAGE_FORMS : List String :=
  ["oral tablet", "oral capsule", "oral solution", "injection", "cream", "gel", "patch"]

/-- medline_scraper.py line 86: salt-form words removed in order. -/
def SALT_FORMS : List String :=
  ["sodium", "hydrochloride", "sulfate", "phosphate", "acetate", "citrate", "tartrate"]

/-- The stripping pipeline of `extract_generic_name` (medline_scraper.py
lines 72-91): lowercase, drop dosage tokens, dosage forms, bracketed brand
annotations and salt words, then collapse and strip whitespace. -/
def strippedName (rxnorm_name : String) : List Char :=
  let name := pyLower rxnorm_name.data
  let name := stripMg name
  let name := DOSAGE_FORMS.foldl (fun acc f => removeAll f.data acc) name
  let name := stripBrackets name
  let name := SALT_FORMS.foldl (fun acc f => removeAll f.data acc) name
  stripChars (collapseWs name)

/-- Python `name.split()[0]`: first whitespace-delimited token, `none`
when the string has no non-whitespace character (where the source raises
`IndexError`). -/
def firstTokenChars (s : List Char) : Option (List Char) :=
  match s.dropWhile isPySpace with
  | [] => none
  | c :: rest => some ((c :: rest).takeWhile (fun d => !isPySpace d))

/-- medline_scraper.py `extract_generic_name` (lines 57-99).  `none`
models the `IndexError` raised on line 96 when the original name has no
whitespace-delimited token (a non-empty, all-whitespace input); that
exception is caught by `scrape_medlineplus`'s handler, not here. -/
def extract_generic_name (rxnorm_name : String) : Option String :=
  if rxnorm_name == "" then some rxnorm_name
  else
    let name := strippedName rxnorm_name
    if name.length < 3 then
      (firstTokenChars rxnorm_name.data).map (fun w => ofChars (pyLower w))
    else some (ofChars name)

/-- The food-specific narrowing step of `scrape_medlineplus`
(medline_scraper.py lines 163-172).  `food_item` is the keyword argument
defaulting to `None`; the guard `if food_item and interaction_sections`
skips the step for `None`, for an empty string and for an empty section
list. -/
def scrape_filter_food_sections (food_item : Option String)
    (interaction_sections : List String) : List String :=
  match food_item with
  | none => interaction_sections
  | some f =>
    if f == "" || interaction_sections.isEmpty then interaction_sections
    else
      let food_lower := pyLowerS f
      let food_specific_sections :=
        interaction_sections.filter (fun s => containsSubS food_lower (pyLowerS s))
      if !food_specific_sections.isEmpty then food_specific_sections
      else interaction_sections

/-- medline_scraper.py line 219 keyword set. -/
def HIGH_RISK_WORDS : List String :=
  ["avoid", "contraindicated", "dangerous", "severe", "serious"]

/-- medline_scraper.py line 222 keyword set. -/
def MODERATE_RISK_WORDS : List String := ["limit", "reduce", "moderate", "caution"]

/-- medline_scraper.py line 225 keyword set. -/
def SAFE_WORDS : List String := ["safe", "no interaction", "no effect"]

/-- `any(word in content_text for word in ws)`. -/
def anyWordIn (ws : List String) (content_text : List Char) : Bool :=
  ws.any (fun w => containsSub w.data content_text)

/-- `' '.join(sections)` on character lists. -/
def joinSpaceChars : List (List Char) → List Char
  | [] => []
  | [s] => s
  | s :: rest => s ++ ' ' :: joinSpaceChars rest

/-- `content_text = ' '.join(sections).lower()` (medline_scraper.py
line 213). -/
def content_text_of (sections : List String) : List Char :=
  pyLower (joinSpaceChars (sections.map String.data))

/-- The risk-classification prefix of `format_interaction_results`
(medline_scraper.py lines 207-230): `none` for an empty section list,
otherwise the (risk level, recommendation, interaction flag) triple that
the formatted output embeds.  The remainder of the source function renders
these into text via the generative adapter and is not needed here. -/
def format_interaction_results_classify (sections : List String) :
    Option (String × String × String) :=
  if sections.isEmpty then none
  else
    let content_text := content_text_of sections
    let riskRec :=
      if anyWordIn HIGH_RISK_WORDS content_text then ("High", "Avoid")
      else if anyWordIn MODERATE_RISK_WORDS content_text then ("Moderate", "Limit")
      else if anyWordIn SAFE_WORDS content_text then ("None", "Safe")
      else ("Low", "Monitor")
    let has_interaction := if !(riskRec.1 == "None") then "Yes" else "No"
    some (riskRec.1, riskRec.2, has_interaction)

/-! ## Claim theorems -/

/-- C1: after the scraper returned null or blank, a generative narrative
whose lowercased text contains "no known interaction" is discarded and the
rule-based prediction for (canonical drug, food) is returned tagged `ml`;
any narrative not containing the phrase is returned itself tagged `ai`. -/
theorem check_interaction_ml_vs_ai
    (g : String → Except String String)
    (sc ge : String → String → Except String (Option String))
    (pr : String → String → Except String String)
    (drug food generic : String) (official ai : Option String)
    (hg : g drug = .ok generic)
    (hsc : sc generic food = .ok official)
    (hoff : officialOk official = false)
    (hge : ge generic food = .ok ai) :
    (aiNoInteraction ai = true →
      ∀ ml, pr generic food = .ok ml →
        check_interaction g sc ge pr drug food = ("ml", some ml, generic)) ∧
    (aiNoInteraction ai = false →
      check_interaction g sc ge pr drug food = ("ai", ai, generic)) := by
  constructor
  · intro hai ml hml
    simp [check_interaction, check_interaction_body, hg, hsc, hoff, hge, hai, hml]
  · intro hai
    simp [check_interaction, check_interaction_body, hg, hsc, hoff, hge, hai]

/-- C1 witness: a narrative containing the phrase routes to the predictor
and is tagged `ml`. -/
theorem check_interaction_ml_vs_ai_witness :
    check_interaction (fun _ => .ok "atorvastatin") (fun _ _ => .ok none)
      (fun _ _ => .ok (some "No known interaction expected here."))
      (fun _ _ => .ok "RULE TABLE RESULT") "Lipitor" "grapefruit"
      = ("ml", some "RULE TABLE RESULT", "atorvastatin") :=
  (check_interaction_ml_vs_ai (fun _ => .ok "atorvastatin") (fun _ _ => .ok none)
      (fun _ _ => .ok (some "No known interaction expected here."))
      (fun _ _ => .ok "RULE TABLE RESULT") "Lipitor" "grapefruit" "atorvastatin"
      none (some "No known interaction expected here.")
      rfl rfl rfl rfl).1 (by decide) "RULE TABLE RESULT" rfl

/-- C2: a non-null, non-blank scraper result is returned as
(`official`, result, canonical drug), and the outcome is the same for
every generative adapter and every predictor — neither is consulted. -/
theorem check_interaction_official_short_circuit
    (g : String → Except String String)
    (sc : String → String → Except String (Option String))
    (drug food generic s : String)
    (hg : g drug = .ok generic)
    (hsc : sc generic food = .ok (some s))
    (hs : officialOk (some s) = true) :
    ∀ (ge : String → String → Except String (Option String))
      (pr : String → String → Except String String),
      check_interaction g sc ge pr drug food = ("official", some s, generic) := by
  intro ge pr
  simp [check_interaction, check_interaction_body, hg, hsc, hs]

/-- C2 witness: with an adapter and a predictor that would fail if ever
invoked, the scraper result is still returned untouched. -/
theorem check_interaction_official_short_circuit_witness :
    check_interaction (fun _ => .ok "warfarin")
      (fun _ _ => .ok (some "Avoid large amounts of spinach."))
      (fun _ _ => .error "adapter must not be called")
      (fun _ _ => .error "predictor must not be called") "Coumadin" "spinach"
      = ("official", some "Avoid large amounts of spinach.", "warfarin") :=
  check_interaction_official_short_circuit (fun _ => .ok "warfarin")
    (fun _ _ => .ok (some "Avoid large amounts of spinach.")) "Coumadin" "spinach"
    "warfarin" "Avoid large amounts of spinach." rfl rfl (by decide)
    (fun _ _ => .error "adapter must not be called")
    (fun _ _ => .error "predictor must not be called")

/-- C3: an exception escaping any of the four collaborators — at whichever
stage the orchestrator actually reaches it — is converted at the boundary
into an `error` result whose message wraps the exception text and whose
drug component is the raw input name, not the canonical one. -/
theorem check_interaction_error_boundary
    (g : String → Except String String)
    (sc ge : String → String → Except String (Option String))
    (pr : String → String → Except String String)
    (drug food e : String) :
    (g drug = .error e →
      check_interaction g sc ge pr drug food =
        ("error", some ("An error occurred while checking interactions: " ++ e), drug)) ∧
    (∀ generic, g drug = .ok generic → sc generic food = .error e →
      check_interaction g sc ge pr drug food =
        ("error", some ("An error occurred while checking interactions: " ++ e), drug)) ∧
    (∀ generic official, g drug = .ok generic → sc generic food = .ok official →
      officialOk official = false → ge generic food = .error e →
      check_interaction g sc ge pr drug food =
        ("error", some ("An error occurred while checking interactions: " ++ e), drug)) ∧
    (∀ generic official ai, g drug = .ok generic → sc generic food = .ok official →
      officialOk official = false → ge generic food = .ok ai →
      aiNoInteraction ai = true → pr generic food = .error e →
      check_interaction g sc ge pr drug food =
        ("error", some ("An error occurred while checking interactions: " ++ e), drug)) := by
  refine ⟨fun h1 => ?_, fun generic h1 h2 => ?_, fun generic official h1 h2 h3 h4 => ?_,
    fun generic official ai h1 h2 h3 h4 h5 h6 => ?_⟩
  · simp [check_interaction, check_interaction_body, h1]
  · simp [check_interaction, check_interaction_body, h1, h2]
  · simp [check_interaction, check_interaction_body, h1, h2, h3, h4]
  · simp [check_interaction, check_interaction_body, h1, h2, h3, h4, h5, h6]

/-- C3 witness: a failing normalization surfaces as an `error` result
carrying the raw drug name. -/
theorem check_interaction_error_boundary_witness :
    check_interaction (fun _ => .error "connection reset") (fun _ _ => .ok none)
      (fun _ _ => .ok none) (fun _ _ => .ok "unused") "Lipitor" "grapefruit"
      = ("error",
         some "An error occurred while checking interactions: connection reset",
         "Lipitor") :=
  (check_interaction_error_boundary (fun _ => .error "connection reset")
      (fun _ _ => .ok none) (fun _ _ => .ok none) (fun _ _ => .ok "unused")
      "Lipitor" "grapefruit" "connection reset").1 rfl

/-- C10: when the scraper yields null or blank and the adapter returns
`None` or an empty narrative, the orchestrator returns that very value
tagged `ai` for every predictor (the predictor is not consulted), and an
`ml`-tagged outcome can only arise from a narrative that contains the
phrase "no known interaction". -/
theorem check_interaction_empty_ai_passthrough
    (g : String → Except String String)
    (sc ge : String → String → Except String (Option String))
    (drug food generic : String) (official ai : Option String)
    (hg : g drug = .ok generic)
    (hsc : sc generic food = .ok official)
    (hoff : officialOk official = false)
    (hge : ge generic food = .ok ai) :
    ((ai = none ∨ ai = some "") →
      ∀ pr : String → String → Except String String,
        check_interaction g sc ge pr drug food = ("ai", ai, generic)) ∧
    (∀ pr : String → String → Except String String,
      (check_interaction g sc ge pr drug food).1 = "ml" →
      aiNoInteraction ai = true) := by
  constructor
  · rintro (rfl | rfl) pr
    · simp [check_interaction, check_interaction_body, hg, hsc, hoff, hge,
        show aiNoInteraction none = false from rfl]
    · simp [check_interaction, check_interaction_body, hg, hsc, hoff, hge,
        show aiNoInteraction (some "") = false from rfl]
  · intro pr hml
    cases hA : aiNoInteraction ai with
    | false =>
      have hres : check_interaction g sc ge pr drug food = ("ai", ai, generic) := by
        simp [check_interaction, check_interaction_body, hg, hsc, hoff, hge, hA]
      rw [hres] at hml
      have hml2 : ("ai" : String) = "ml" := hml
      exact absurd hml2 (by decide)
    | true => rfl

/-- C10 witness: a `None` narrative is passed through tagged `ai` with no
text at all. -/
theorem check_interaction_empty_ai_passthrough_witness :
    check_interaction (fun _ => .ok "atorvastatin") (fun _ _ => .ok (some "   "))
      (fun _ _ => .ok none) (fun _ _ => .ok "unused") "Lipitor" "grapefruit"
      = ("ai", none, "atorvastatin") :=
  (check_interaction_empty_ai_passthrough (fun _ => .ok "atorvastatin")
      (fun _ _ => .ok (some "   ")) (fun _ _ => .ok none) "Lipitor" "grapefruit"
      "atorvastatin" (some "   ") none rfl rfl (by decide) rfl).1
    (Or.inl rfl) (fun _ _ => .ok "unused")

/-- C4: contrary to the claim (and to the source's own comment "Prefer
generic names over brand names"), every branch of the candidate loop is
guarded by `not best_match`, so the first candidate always wins: with a
brand-tagged candidate ahead of an ingredient-tagged one, the brand name
is selected. -/
theorem findBestMatch_takes_first_candidate :
    findBestMatch "lipitor"
      [some [{ synonymType := some "BN", name := some "Lipitor" },
             { synonymType := some "IN", name := some "atorvastatin" }]]
      = some "Lipitor" ∧ ("Lipitor" : String) ≠ "atorvastatin" := by decide

/-- An rxnorm environment whose three HTTP endpoints are unreachable and
whose persistent cache holds a stale entry for "lipitor". -/
def offlineEnvWithStaleCache : RxEnv where
  cache := [("lipitor", "bogus")]
  drugSearch := fun _ => .error "offline"
  rxcuiOf := fun _ => .error "offline"
  propsName := fun _ => .error "offline"

/-- C5 counterexample: "lipitor" is an exact alias-table hit mapped to
"atorvastatin", yet `get_generic_name` — the normalization core.py
imports — never consults the alias table: it answers from the persistent
cache, so its result depends on the cache contents and is not the mapped
generic. -/
theorem get_generic_name_ignores_alias_table :
    lookupAssoc COMMON_DRUG_MAPPINGS "lipitor" = some "atorvastatin" ∧
    get_generic_name_impl offlineEnvWithStaleCache "lipitor"
      = ("bogus", [("lipitor", "bogus")], 0) ∧
    ("bogus" : String) ≠ "atorvastatin" := by decide

/-- C5 amended: it is `get_generic_name_quick` that returns the mapped
generic immediately on an exact case-insensitive alias-table hit, with the
cache unchanged and zero network requests, whatever the cache and the
terminology service hold. -/
theorem get_generic_name_quick_alias_hit (env : RxEnv) (drug_name g : String)
    (h : lookupAssoc COMMON_DRUG_MAPPINGS (pyLowerS drug_name) = some g) :
    get_generic_name_quick env drug_name = (g, env.cache, 0) := by
  simp [get_generic_name_quick, h]

/-- C5 witness: "Lipitor" resolves to "atorvastatin" through the alias
table, leaving the (stale) cache untouched and issuing no request. -/
theorem get_generic_name_quick_alias_hit_witness :
    get_generic_name_quick offlineEnvWithStaleCache "Lipitor"
      = ("atorvastatin", [("lipitor", "bogus")], 0) :=
  get_generic_name_quick_alias_hit offlineEnvWithStaleCache "Lipitor" "atorvastatin"
    (by decide)

/-- Modelled from the claim's wording of rule 3: "an entry ... whose food
term equals or is a substring of the query food" — i.e. the entry's food
key occurring inside the query food.  The source tests the opposite
direction (`food_lower in food_name`). -/
def partialFindStated (drug_lower food_lower : String) : Option InteractionEntry :=
  DRUG_FOOD_INTERACTIONS.find? (fun e =>
    (containsSubS drug_lower e.drug || containsSubS e.drug drug_lower) &&
    (food_lower == e.food || containsSubS e.food food_lower))

/-- The claim's rule cascade with its stated rule 3. -/
def predict_interaction_stated (drug food : String) : String :=
  let drug_lower := pyLowerS drug
  let food_lower := pyLowerS food
  match directFind drug_lower food_lower with
  | some interaction => format_interaction_result interaction drug food
  | none =>
    match categoryFind drug_lower food_lower with
    | some interaction => format_interaction_result interaction drug food
    | none =>
      match partialFindStated drug_lower food_lower with
      | some interaction => format_interaction_result interaction drug food
      | none => generate_no_interaction_response drug food

set_option maxRecDepth 8000 in
/-- C6 counterexample: on ("atorvastatin", "grape") the claim's rule 3
finds nothing — "grapefruit" is not a substring of "grape" — so the
claimed cascade yields the no-interaction response, while the source's
rule 3 tests `food_lower in food_name`, matches the grapefruit entry, and
reports a High risk. -/
theorem predict_interaction_substring_direction_counterexample :
    predict_interaction_stated "atorvastatin" "grape"
      = generate_no_interaction_response "atorvastatin" "grape" ∧
    predict_interaction "atorvastatin" "grape"
      ≠ generate_no_interaction_response "atorvastatin" "grape" ∧
    containsSubS "**RISK LEVEL**: High"
      (predict_interaction "atorvastatin" "grape") = true := by decide

/-- Modelled from the amended claim: the same ordered cascade with first
match winning, rule 3 now requiring the query food to equal the entry's
food term or to occur inside it as a substring. -/
def predict_interaction_rules_amended (drug food : String) : Option InteractionEntry :=
  directFind (pyLowerS drug) (pyLowerS food) <|>
  categoryFind (pyLowerS drug) (pyLowerS food) <|>
  partialFind (pyLowerS drug) (pyLowerS food)

/-- Rendering of the amended claim's cascade. -/
def predict_interaction_amended_spec (drug food : String) : String :=
  match predict_interaction_rules_amended drug food with
  | some interaction => format_interaction_result interaction drug food
  | none => generate_no_interaction_response drug food

set_option maxRecDepth 8000 in
/-- C6 amended: `predict_interaction` is total and equals the ordered
first-match-wins cascade (exact pair, then category, then the corrected
substring rule); when no rule matches, the synthesized response carries
risk None and action Safe. -/
theorem predict_interaction_matches_amended_rules (drug food : String) :
    predict_interaction drug food = predict_interaction_amended_spec drug food ∧
    (predict_interaction_rules_amended drug food = none →
      containsSubS "**RISK LEVEL**: None" (predict_interaction drug food) = true ∧
      containsSubS "**RECOMMENDATION**: Safe" (predict_interaction drug food) = true) := by
  have hmain : predict_interaction drug food = predict_interaction_amended_spec drug food := by
    unfold predict_interaction predict_interaction_amended_spec
      predict_interaction_rules_amended
    cases h1 : directFind (pyLowerS drug) (pyLowerS food) <;>
      cases h2 : categoryFind (pyLowerS drug) (pyLowerS food) <;>
        cases h3 : partialFind (pyLowerS drug) (pyLowerS food) <;>
          simp [h1, h2, h3]
  refine ⟨hmain, fun hnone => ?_⟩
  have hfall : predict_interaction drug food
      = generate_no_interaction_response drug food := by
    rw [hmain]
    unfold predict_interaction_amended_spec
    rw [hnone]
  have hconst : generate_no_interaction_response drug food
      = generate_no_interaction_response "" "" := rfl
  rw [hfall, hconst]
  exact ⟨by decide, by decide⟩

/-- C6 witness: on an unknown pair the cascade finds nothing and the
response is the synthesized None/Safe text. -/
theorem predict_interaction_matches_amended_rules_witness :
    predict_interaction "brivaracetam" "dragonfruit"
      = predict_interaction_amended_spec "brivaracetam" "dragonfruit" ∧
    containsSubS "**RISK LEVEL**: None"
      (predict_interaction "brivaracetam" "dragonfruit") = true ∧
    containsSubS "**RECOMMENDATION**: Safe"
      (predict_interaction "brivaracetam" "dragonfruit") = true := by
  have h := predict_interaction_matches_amended_rules "brivaracetam" "dragonfruit"
  exact ⟨h.1, h.2 (by decide)⟩

/-- C7: with at least one surviving section, the classifier scans the
lowercased concatenation in priority order — any high-risk keyword gives
High/Avoid regardless of other keywords (in particular a text with both
"avoid" and "monitor"), else a moderate keyword gives Moderate/Limit, else
a safe keyword gives None/Safe, else the default Low/Monitor — and the
interaction flag is "Yes" exactly when the risk level is not "None". -/
theorem format_interaction_results_classify_priority
    (sections : List String) (hne : sections.isEmpty = false) :
    (anyWordIn HIGH_RISK_WORDS (content_text_of sections) = true →
      format_interaction_results_classify sections = some ("High", "Avoid", "Yes")) ∧
    (anyWordIn HIGH_RISK_WORDS (content_text_of sections) = false →
      anyWordIn MODERATE_RISK_WORDS (content_text_of sections) = true →
      format_interaction_results_classify sections = some ("Moderate", "Limit", "Yes")) ∧
    (anyWordIn HIGH_RISK_WORDS (content_text_of sections) = false →
      anyWordIn MODERATE_RISK_WORDS (content_text_of sections) = false →
      anyWordIn SAFE_WORDS (content_text_of sections) = true →
      format_interaction_results_classify sections = some ("None", "Safe", "No")) ∧
    (anyWordIn HIGH_RISK_WORDS (content_text_of sections) = false →
      anyWordIn MODERATE_RISK_WORDS (content_text_of sections) = false →
      anyWordIn SAFE_WORDS (content_text_of sections) = false →
      format_interaction_results_classify sections = some ("Low", "Monitor", "Yes")) ∧
    (containsSub "avoid".data (content_text_of sections) = true →
      containsSub "monitor".data (content_text_of sections) = true →
      format_interaction_results_classify sections = some ("High", "Avoid", "Yes")) ∧
    (∀ risk rec flag, format_interaction_results_classify sections = some (risk, rec, flag) →
      (flag = "Yes" ↔ risk ≠ "None")) := by
  have hhigh : containsSub "avoid".data (content_text_of sections) = true →
      anyWordIn HIGH_RISK_WORDS (content_text_of sections) = true := by
    intro hb
    simp [anyWordIn, HIGH_RISK_WORDS, hb]
  refine ⟨fun h1 => ?_, fun h1 h2 => ?_, fun h1 h2 h3 => ?_, fun h1 h2 h3 => ?_,
    fun ha hm => ?_, fun risk rec flag h => ?_⟩
  · simp [format_interaction_results_classify, hne, h1]
  · simp [format_interaction_results_classify, hne, h1, h2]
  · simp [format_interaction_results_classify, hne, h1, h2, h3]
  · simp [format_interaction_results_classify, hne, h1, h2, h3]
  · simp [format_interaction_results_classify, hne, hhigh ha]
  · by_cases h1 : anyWordIn HIGH_RISK_WORDS (content_text_of sections) = true
    · have hv : format_interaction_results_classify sections
          = some ("High", "Avoid", "Yes") := by
        simp [format_interaction_results_classify, hne, h1]
      rw [hv] at h
      simp only [Option.some.injEq, Prod.mk.injEq] at h
      obtain ⟨hr, _, hf⟩ := h
      subst hr; subst hf; decide
    · rw [Bool.not_eq_true] at h1
      by_cases h2 : anyWordIn MODERATE_RISK_WORDS (content_text_of sections) = true
      · have hv : format_interaction_results_classify sections
            = some ("Moderate", "Limit", "Yes") := by
          simp [format_interaction_results_classify, hne, h1, h2]
        rw [hv] at h
        simp only [Option.some.injEq, Prod.mk.injEq] at h
        obtain ⟨hr, _, hf⟩ := h
        subst hr; subst hf; decide
      · rw [Bool.not_eq_true] at h2
        by_cases h3 : anyWordIn SAFE_WORDS (content_text_of sections) = true
        · have hv : format_interaction_results_classify sections
              = some ("None", "Safe", "No") := by
            simp [format_interaction_results_classify, hne, h1, h2, h3]
          rw [hv] at h
          simp only [Option.some.injEq, Prod.mk.injEq] at h
          obtain ⟨hr, _, hf⟩ := h
          subst hr; subst hf; decide
        · rw [Bool.not_eq_true] at h3
          have hv : format_interaction_results_classify sections
              = some ("Low", "Monitor", "Yes") := by
            simp [format_interaction_results_classify, hne, h1, h2, h3]
          rw [hv] at h
          simp only [Option.some.injEq, Prod.mk.injEq] at h
          obtain ⟨hr, _, hf⟩ := h
          subst hr; subst hf; decide

/-- C7 witness: a passage containing both "avoid" and "monitor" classifies
High/Avoid with the interaction flag set. -/
theorem format_interaction_results_classify_priority_witness :
    format_interaction_results_classify
      ["You should avoid grapefruit and monitor your symptoms."]
      = some ("High", "Avoid", "Yes") :=
  (format_interaction_results_classify_priority
      ["You should avoid grapefruit and monitor your symptoms."]
      (by decide)).2.2.2.2.1 (by decide) (by decide)

/-- C8 counterexample: on the non-empty, all-whitespace input " " the
stripped result is shorter than 3 characters, yet the fallback does not
produce a token — `rxnorm_name.split()[0]` raises `IndexError` (modelled
as `none`); and on "AB" the fallback token is returned lowercased as
"ab", not as the original token "AB". -/
theorem extract_generic_name_fallback_counterexample :
    ((strippedName " ").length < 3 ∧ extract_generic_name " " = none) ∧
    extract_generic_name "AB" = some "ab" := by decide

/-- C8 amended: the stripping pipeline maps
"atorvastatin 80 MG Oral Tablet [Lipitor]" to "atorvastatin", and for
every input that has a whitespace-delimited token, a stripped result
shorter than 3 characters falls back to that first token, lowercased. -/
theorem extract_generic_name_spec :
    extract_generic_name "atorvastatin 80 MG Oral Tablet [Lipitor]"
      = some "atorvastatin" ∧
    ∀ (s : String) (t : List Char), firstTokenChars s.data = some t →
      (strippedName s).length < 3 →
      extract_generic_name s = some (ofChars (pyLower t)) := by
  constructor
  · decide
  · intro s t ht hlen
    have hs : s ≠ "" := by
      intro h
      subst h
      rw [show firstTokenChars "".data = none from rfl] at ht
      exact Option.noConfusion ht
    have hs' : (s == "") = false := beq_eq_false_iff_ne.mpr hs
    simp [extract_generic_name, hs', hlen, ht]

/-- C8 witness: "ab" strips to a 2-character result and falls back to its
own first token. -/
theorem extract_generic_name_spec_witness :
    extract_generic_name "atorvastatin 80 MG Oral Tablet [Lipitor]"
      = some "atorvastatin" ∧
    extract_generic_name "ab" = some (ofChars (pyLower ['a', 'b'])) :=
  ⟨extract_generic_name_spec.1,
   extract_generic_name_spec.2 "ab" ['a', 'b'] (by decide) (by decide)⟩

/-- C9: with a non-empty requested food term and a non-empty section
collection, the narrowing step returns the sections containing the food
term when there are any, the unfiltered collection otherwise — and so it
never returns an empty collection. -/
theorem scrape_filter_food_sections_never_empties
    (f : String) (sections : List String)
    (hf : (f == "") = false) (hs : sections.isEmpty = false) :
    scrape_filter_food_sections (some f) sections ≠ [] ∧
    ((sections.filter (fun s => containsSubS (pyLowerS f) (pyLowerS s))).isEmpty
        = false →
      scrape_filter_food_sections (some f) sections
        = sections.filter (fun s => containsSubS (pyLowerS f) (pyLowerS s))) ∧
    ((sections.filter (fun s => containsSubS (pyLowerS f) (pyLowerS s))).isEmpty
        = true →
      scrape_filter_food_sections (some f) sections = sections) := by
  have hbody : scrape_filter_food_sections (some f) sections =
      if !(sections.filter (fun s => containsSubS (pyLowerS f) (pyLowerS s))).isEmpty
      then sections.filter (fun s => containsSubS (pyLowerS f) (pyLowerS s))
      else sections := by
    simp [scrape_filter_food_sections, hf, hs]
  by_cases hfe :
      (sections.filter (fun s => containsSubS (pyLowerS f) (pyLowerS s))).isEmpty = true
  · rw [hbody, hfe]
    refine ⟨?_, fun hcontra => ?_, fun _ => rfl⟩
    · simp only [Bool.not_true, Bool.false_eq_true, if_false]
      intro hnil
      rw [hnil] at hs
      exact Bool.noConfusion hs
    · exact Bool.noConfusion hcontra
  · rw [Bool.not_eq_true] at hfe
    rw [hbody, hfe]
    refine ⟨?_, fun _ => rfl, fun hcontra => ?_⟩
    · simp only [Bool.not_false, if_true]
      intro hnil
      rw [hnil] at hfe
      exact Bool.noConfusion hfe
    · exact Bool.noConfusion hcontra

/-- C9 witness: a food term matching one section narrows to it; the whole
step keeps the collection non-empty. -/
theorem scrape_filter_food_sections_never_empties_witness :
    scrape_filter_food_sections (some "grapefruit")
      ["Take with food.", "Grapefruit juice raises drug levels."]
      ≠ [] ∧
    scrape_filter_food_sections (some "grapefruit")
      ["Take with food.", "Grapefruit juice raises drug levels."]
      = ["Grapefruit juice raises drug levels."] := by
  have h := scrape_filter_food_sections_never_empties "grapefruit"
    ["Take with food.", "Grapefruit juice raises drug levels."] (by decide) (by decide)
  exact ⟨h.1, h.2.1 (by decide)⟩
